import Mathlib

/-!
Verification development for the CNPJ resolution-and-merge engine
(`main.py` of the `cnpj_search` repository).

The definitions below are a shallow embedding of the Python source:
pure functions become Lean functions, the stateful scheduler becomes a
step relation, fallible code returns `Option`.  Machine strings are
Lean `String`s; Python's emptiness test `not s or s.strip() == ""`
is `isBlank`.  Times are `Int` seconds, retry delays are `ℚ`.
-/

/-- Python truthiness-with-strip test used throughout `main.py`:
`not s or s.strip() == ""` holds exactly when every character of `s`
is whitespace (in particular for the empty string). -/
def isBlank (s : String) : Bool :=
  s.data.all (fun c => c.isWhitespace)

/-- Splits a character list at every occurrence of `sep`, keeping empty
groups, like Python's `str.split(sep)` / `re.split`. -/
def splitOnChar (sep : Char) : List Char → List (List Char)
  | [] => [[]]
  | c :: cs =>
    match splitOnChar sep cs with
    | [] => [[c]]
    | g :: gs => if c = sep then [] :: g :: gs else (c :: g) :: gs

/-- Python `str.capitalize`: first character uppercased, the rest lowercased. -/
def pyCapitalizeChars : List Char → List Char
  | [] => []
  | c :: cs => c.toUpper :: cs.map Char.toLower

/-- `STOPWORDS` from `main.py`. -/
def STOPWORDS : List String :=
  ["da", "do", "dos", "das", "de", "me", "epp", "lt", "ltda", "sa", "s", "ass", "com"]

/-- `build_nome_api` from `main.py`: replace non-alphanumeric characters
with spaces, split into words, drop stopwords, capitalize, join with `-`. -/
def build_nome_api (raw_name : String) : String :=
  if raw_name.isEmpty then ""
  else
    let clean_name := raw_name.data.map (fun c => if c.isAlphanum then c else ' ')
    let words := (splitOnChar ' ' clean_name).filter
      (fun w => !w.isEmpty && !(STOPWORDS.contains (String.mk (w.map Char.toLower))))
    String.intercalate "-" (words.map (fun w => String.mk (pyCapitalizeChars w)))

/-- Insertion of a string into a lexicographically sorted list. -/
def insertSorted (x : String) : List String → List String
  | [] => [x]
  | y :: ys => if x < y then x :: y :: ys else y :: insertSorted x ys

/-- Lexicographic insertion sort, modelling Python's `sorted`. -/
def sortStrings (l : List String) : List String :=
  l.foldr insertSorted []

/-- `format_br_phone` from `main.py`: split on commas, keep the digits of
each part, strip a leading Brazilian country code, format by length, and
return the sorted duplicate-free parts joined with `", "`. -/
def format_br_phone (number : String) : String :=
  if number.isEmpty then ""
  else
    let parts := splitOnChar ',' number.data
    let results := parts.foldl (fun acc part =>
      let digits0 := part.filter Char.isDigit
      let digits := if digits0.take 2 = ['5', '5'] ∧ digits0.length > 11
                    then digits0.drop 2 else digits0
      if digits.length = 11 then
        acc ++ ["(" ++ String.mk (digits.take 2) ++ ") " ++
                String.mk ((digits.drop 2).take 5) ++ "-" ++ String.mk (digits.drop 7)]
      else if digits.length = 10 then
        acc ++ ["(" ++ String.mk (digits.take 2) ++ ") " ++
                String.mk ((digits.drop 2).take 4) ++ "-" ++ String.mk (digits.drop 6)]
      else if digits.length = 9 then
        acc ++ [String.mk (digits.take 5) ++ "-" ++ String.mk (digits.drop 5)]
      else if !digits.isEmpty then acc ++ [String.mk digits]
      else acc) []
    String.intercalate ", " (sortStrings results.dedup)

/-- The `CNPJData` dataclass of `main.py`, with its field defaults
(`mei` starts at the unknown sentinel `"?"`). -/
@[ext]
structure CNPJData where
  cnpj : String
  nome_empresa : String := ""
  nome_api_puxada : String := ""
  natureza : String := ""
  situacao : String := ""
  porte : String := ""
  mei : String := "?"
  telefone : String := ""
  email : String := ""
  source : String := ""
deriving DecidableEq

/-- `CNPJData(cnpj=cnpj)`: the record a resolution starts from. -/
def initCNPJData (cnpj : String) : CNPJData :=
  { cnpj := cnpj }

/-- One field update of `_merge_cnpj_data`:
`if not existing.f or existing.f.strip() == "": existing.f = new.f`. -/
def mergeField (old new : String) : String :=
  if isBlank old then new else old

/-- The `mei` update of `_merge_cnpj_data`:
`if not existing.mei or existing.mei.strip() == "" or existing.mei == "?"`. -/
def mergeMei (old new : String) : String :=
  if isBlank old || old == "?" then new else old

/-- The `source` update of `_merge_cnpj_data`: when both tags are
non-empty and differ they are concatenated with `" + "`, otherwise the
non-empty one wins. -/
def mergeSource (old new : String) : String :=
  if !old.isEmpty && !new.isEmpty then
    (if old == new then old else old ++ " + " ++ new)
  else if !new.isEmpty then new
  else old

/-- `_merge_cnpj_data` from `main.py` (functional form): `None` fragments
leave the record unchanged; otherwise every field is updated first-writer-wins
and `source` accumulates. The `cnpj` field is never touched. -/
def merge_cnpj_data (existing : CNPJData) (newData : Option CNPJData) : CNPJData :=
  match newData with
  | none => existing
  | some nd =>
    { existing with
      nome_empresa := mergeField existing.nome_empresa nd.nome_empresa
      nome_api_puxada := mergeField existing.nome_api_puxada nd.nome_api_puxada
      natureza := mergeField existing.natureza nd.natureza
      situacao := mergeField existing.situacao nd.situacao
      porte := mergeField existing.porte nd.porte
      mei := mergeMei existing.mei nd.mei
      telefone := mergeField existing.telefone nd.telefone
      email := mergeField existing.email nd.email
      source := mergeSource existing.source nd.source }

/-- `_is_data_complete` from `main.py`: the record must have a company
name, plus at least one of nature, status or size. -/
def is_data_complete (d : CNPJData) : Bool :=
  if isBlank d.nome_empresa then false
  else !isBlank d.natureza || !isBlank d.situacao || !isBlank d.porte

/-- The five external providers, in the fixed priority order of
`scrape_cnpj`'s STEP 1. -/
inductive Provider where
  | cnpja
  | brasilApi
  | receitaWs
  | cnpjWs
  | minhaReceita
deriving DecidableEq

/-- The fixed fallback order CNPJá → BrasilAPI → ReceitaWS → CNPJ.ws → Minha Receita. -/
def providerOrder : List Provider :=
  [Provider.cnpja, Provider.brasilApi, Provider.receitaWs, Provider.cnpjWs, Provider.minhaReceita]

/-- The per-provider enable flags of the configuration. -/
structure ApiConfig where
  cnpja_enabled : Bool
  brasil_api_enabled : Bool
  receita_ws_enabled : Bool
  cnpj_ws_enabled : Bool
  minha_receita_enabled : Bool
deriving DecidableEq

/-- The environment of one resolution: what each provider adapter
(`get_from_*`) would return for the identifier (`none` is a miss). -/
structure ProviderResponses where
  fromCnpja : Option CNPJData
  fromBrasilApi : Option CNPJData
  fromReceitaWs : Option CNPJData
  fromCnpjWs : Option CNPJData
  fromMinhaReceita : Option CNPJData

def enabledFlag (cfg : ApiConfig) : Provider → Bool
  | Provider.cnpja => cfg.cnpja_enabled
  | Provider.brasilApi => cfg.brasil_api_enabled
  | Provider.receitaWs => cfg.receita_ws_enabled
  | Provider.cnpjWs => cfg.cnpj_ws_enabled
  | Provider.minhaReceita => cfg.minha_receita_enabled

def respOf (resp : ProviderResponses) : Provider → Option CNPJData
  | Provider.cnpja => resp.fromCnpja
  | Provider.brasilApi => resp.fromBrasilApi
  | Provider.receitaWs => resp.fromReceitaWs
  | Provider.cnpjWs => resp.fromCnpjWs
  | Provider.minhaReceita => resp.fromMinhaReceita

/-- The source tag each provider block assigns after a complete merge. -/
def providerTag : Provider → String
  | Provider.cnpja => "CNPJá"
  | Provider.brasilApi => "BrasilAPI"
  | Provider.receitaWs => "ReceitaWS"
  | Provider.cnpjWs => "CNPJ.ws"
  | Provider.minhaReceita => "Minha Receita"

/-- The CNPJá block of `scrape_cnpj` (no name gate: it is the first provider).
The state is the record so far together with the ordered trace of providers
queried so far; `get_from_cnpja` is queried exactly when the flag is on. -/
def step_cnpja (cfg : ApiConfig) (resp : ProviderResponses)
    (st : CNPJData × List Provider) : CNPJData × List Provider :=
  if cfg.cnpja_enabled then
    match resp.fromCnpja with
    | some api =>
      if is_data_complete api then
        ({ merge_cnpj_data st.1 (some api) with source := "CNPJá" }, st.2 ++ [Provider.cnpja])
      else (st.1, st.2 ++ [Provider.cnpja])
    | none => (st.1, st.2 ++ [Provider.cnpja])
  else st

/-- The BrasilAPI block of `scrape_cnpj`, gated on
`not data.nome_empresa or data.nome_empresa.strip() == ""`. -/
def step_brasil_api (cfg : ApiConfig) (resp : ProviderResponses)
    (st : CNPJData × List Provider) : CNPJData × List Provider :=
  if isBlank st.1.nome_empresa then
    if cfg.brasil_api_enabled then
      match resp.fromBrasilApi with
      | some api =>
        if is_data_complete api then
          ({ merge_cnpj_data st.1 (some api) with source := "BrasilAPI" },
            st.2 ++ [Provider.brasilApi])
        else (st.1, st.2 ++ [Provider.brasilApi])
      | none => (st.1, st.2 ++ [Provider.brasilApi])
    else st
  else st

/-- The ReceitaWS block of `scrape_cnpj`: the one provider with an
`elif api_data:` special case that merges a partial fragment and tags the
source `"ReceitaWS (partial)"`. -/
def step_receita_ws (cfg : ApiConfig) (resp : ProviderResponses)
    (st : CNPJData × List Provider) : CNPJData × List Provider :=
  if isBlank st.1.nome_empresa then
    if cfg.receita_ws_enabled then
      match resp.fromReceitaWs with
      | some api =>
        if is_data_complete api then
          ({ merge_cnpj_data st.1 (some api) with source := "ReceitaWS" },
            st.2 ++ [Provider.receitaWs])
        else
          ({ merge_cnpj_data st.1 (some api) with source := "ReceitaWS (partial)" },
            st.2 ++ [Provider.receitaWs])
      | none => (st.1, st.2 ++ [Provider.receitaWs])
    else st
  else st

/-- The CNPJ.ws block of `scrape_cnpj`. -/
def step_cnpj_ws (cfg : ApiConfig) (resp : ProviderResponses)
    (st : CNPJData × List Provider) : CNPJData × List Provider :=
  if isBlank st.1.nome_empresa then
    if cfg.cnpj_ws_enabled then
      match resp.fromCnpjWs with
      | some api =>
        if is_data_complete api then
          ({ merge_cnpj_data st.1 (some api) with source := "CNPJ.ws" },
            st.2 ++ [Provider.cnpjWs])
        else (st.1, st.2 ++ [Provider.cnpjWs])
      | none => (st.1, st.2 ++ [Provider.cnpjWs])
    else st
  else st

/-- The Minha Receita block of `scrape_cnpj` (last fallback). -/
def step_minha_receita (cfg : ApiConfig) (resp : ProviderResponses)
    (st : CNPJData × List Provider) : CNPJData × List Provider :=
  if isBlank st.1.nome_empresa then
    if cfg.minha_receita_enabled then
      match resp.fromMinhaReceita with
      | some api =>
        if is_data_complete api then
          ({ merge_cnpj_data st.1 (some api) with source := "Minha Receita" },
            st.2 ++ [Provider.minhaReceita])
        else (st.1, st.2 ++ [Provider.minhaReceita])
      | none => (st.1, st.2 ++ [Provider.minhaReceita])
    else st
  else st

/-- STEP 1 of `scrape_cnpj`: the sequential API fallback chain, starting
from `CNPJData(cnpj=cnpj)` and an empty query trace. -/
def scrape_cnpj_chain (cfg : ApiConfig) (resp : ProviderResponses)
    (cnpj : String) : CNPJData × List Provider :=
  step_minha_receita cfg resp
    (step_cnpj_ws cfg resp
      (step_receita_ws cfg resp
        (step_brasil_api cfg resp
          (step_cnpja cfg resp (initCNPJData cnpj, [])))))

/-- Uniform view of one provider block: gate on a blank name, query when
enabled, merge a complete fragment (or, for ReceitaWS only, any fragment,
then tagged partial).  Each `step_*` function equals `gstep` of its
provider; this form drives the inductive proofs. -/
def gstep (p : Provider) (e : Bool) (frag : Option CNPJData)
    (st : CNPJData × List Provider) : CNPJData × List Provider :=
  if isBlank st.1.nome_empresa then
    if e then
      match frag with
      | some api =>
        if is_data_complete api then
          ({ merge_cnpj_data st.1 (some api) with source := providerTag p }, st.2 ++ [p])
        else if p == Provider.receitaWs then
          ({ merge_cnpj_data st.1 (some api) with source := "ReceitaWS (partial)" }, st.2 ++ [p])
        else (st.1, st.2 ++ [p])
      | none => (st.1, st.2 ++ [p])
    else st
  else st

/-- Folding `gstep` over a provider list. -/
def chainAll (cfg : ApiConfig) (resp : ProviderResponses) :
    List Provider → CNPJData × List Provider → CNPJData × List Provider
  | [], st => st
  | p :: ps, st => chainAll cfg resp ps (gstep p (enabledFlag cfg p) (respOf resp p) st)

/-- Specification-side stopping rule of the fallback chain (from the spec's
words): the chain stops at a provider when its fragment is complete, or —
for ReceitaWS only — when any returned fragment carries a non-blank name. -/
def fragmentStops (p : Provider) (frag : Option CNPJData) : Bool :=
  match frag with
  | none => false
  | some f => is_data_complete f || (p == Provider.receitaWs && !isBlank f.nome_empresa)

/-- The prefix of a list up to and including the first element satisfying
`f` (the whole list when none does). -/
def takeThrough (f : Provider → Bool) : List Provider → List Provider
  | [] => []
  | p :: ps => if f p then [p] else p :: takeThrough f ps

/-- The final contact validation of `scrape_cnpj`: blank phone/email
are replaced by `"N/A"`. -/
def finalize_contact (d : CNPJData) : CNPJData :=
  { d with
    telefone := if isBlank d.telefone then "N/A" else d.telefone
    email := if isBlank d.email then "N/A" else d.email }

/-- `scrape_cnpj` with `ENABLE_ADDITIONAL_SCRAPING` off: the API fallback
chain (STEP 1) followed by the final contact validation; STEP 2 (web
enrichment) is skipped in that configuration and touches only
`telefone`/`email`/`source` anyway. -/
def scrape_cnpj_result (cfg : ApiConfig) (resp : ProviderResponses)
    (cnpj : String) : CNPJData :=
  finalize_contact (scrape_cnpj_chain cfg resp cnpj).1

/-- The record block written by `save_result`, line by line. -/
def save_result_lines (d : CNPJData) : List String :=
  ["NOME LEGAL: " ++ d.nome_empresa,
   "NOME API DE PUXADA: " ++ build_nome_api d.nome_api_puxada,
   "CNPJ: " ++ d.cnpj,
   "NATUREZA: " ++ d.natureza,
   "SITUACAO: " ++ d.situacao,
   "PORTE: " ++ d.porte,
   "MEI: " ++ d.mei,
   "TEL: " ++ format_br_phone d.telefone,
   "EMAIL: " ++ d.email,
   String.mk (List.replicate 50 '-')]

/-- The record block written by `save_result`, as the appended text. -/
def save_result_text (d : CNPJData) : String :=
  String.intercalate "\n" (save_result_lines d) ++ "\n"

/-- The payload of a parsed provider response: the JSON object returned by
`response.json()`, as key/value pairs.  Python truthiness of a dict is
non-emptiness. -/
abbrev Payload : Type := List (String × String)

/-- `SimpleCache` from `main.py`: a key ↦ (value, insertion time) map with
one TTL.  The dict is an association list whose first binding wins. -/
structure SimpleCache where
  cache : List (String × Payload × Int)
  ttl : Int

/-- `SimpleCache.get`: a hit only while `now - timestamp < ttl`; an expired
entry is deleted on the read (lazy eviction) and reported as absent.  The
returned cache reflects the deletion. -/
def SimpleCache.get (c : SimpleCache) (key : String) (now : Int) :
    Option Payload × SimpleCache :=
  match c.cache.lookup key with
  | some (value, timestamp) =>
    if now - timestamp < c.ttl then (some value, c)
    else (none, { c with cache := c.cache.filter (fun e => e.1 != key) })
  | none => (none, c)

/-- `SimpleCache.set`: unconditional overwrite, stamped with `now`. -/
def SimpleCache.set (c : SimpleCache) (key : String) (value : Payload)
    (now : Int) : SimpleCache :=
  { c with cache := (key, value, now) :: c.cache.filter (fun e => e.1 != key) }

/-- The retry configuration of `make_request`:
`RETRY_ATTEMPTS` and `RETRY_DELAY_MIN`. -/
structure ReqConfig where
  retry_attempts : Nat
  retry_delay_min : ℚ

/-- What one `session.get` of the target URL yields: a completed HTTP
response with a status and a parsed JSON payload, or an exception
(transport failure, timeout, or JSON parse error — all land in the
`except` branch). -/
inductive Attempt where
  | response (status : Nat) (payload : Payload)
  | exc

/-- The observable outcome of one `make_request` call: the returned value,
the cache afterwards, the backoff sleeps performed in order, and how many
`session.get` fetches were issued. -/
structure ReqResult where
  result : Option Payload
  cache : SimpleCache
  sleeps : List ℚ
  fetches : Nat

/-- The `for attempt in range(RETRY_ATTEMPTS)` loop of `make_request`.
`attempt` is the current 0-based index, the second argument the number of
iterations left.  A 200 response is cached (when a key was given) and
returned; any other status silently falls through to the next iteration
with no sleep; an exception sleeps `delay_min * 2 ** attempt` unless it was
the final attempt.  When the loop ends, `None` is returned. -/
def request_loop (cfg : ReqConfig) (outcomes : Nat → Attempt)
    (key : Option String) (now : Int) :
    Nat → Nat → SimpleCache → ReqResult
  | _, 0, c => ⟨none, c, [], 0⟩
  | attempt, r + 1, c =>
    match outcomes attempt with
    | Attempt.response status payload =>
      if status == 200 then
        match key with
        | some k => ⟨some payload, c.set k payload now, [], 1⟩
        | none => ⟨some payload, c, [], 1⟩
      else
        let rest := request_loop cfg outcomes key now (attempt + 1) r c
        ⟨rest.result, rest.cache, rest.sleeps, rest.fetches + 1⟩
    | Attempt.exc =>
      let rest := request_loop cfg outcomes key now (attempt + 1) r c
      if attempt < cfg.retry_attempts - 1 then
        ⟨rest.result, rest.cache, cfg.retry_delay_min * 2 ^ attempt :: rest.sleeps,
          rest.fetches + 1⟩
      else
        ⟨rest.result, rest.cache, rest.sleeps, rest.fetches + 1⟩

/-- `make_request` from `main.py`: a truthy cached value is returned with
no fetch; otherwise (miss, expiry, or falsy cached value) the retry loop
runs.  `outcomes` abstracts what `session.get(url)` yields on each attempt. -/
def make_request (cfg : ReqConfig) (outcomes : Nat → Attempt)
    (key : Option String) (c : SimpleCache) (now : Int) : ReqResult :=
  match key with
  | some k =>
    match SimpleCache.get c k now with
    | (some v, c1) =>
      if v.isEmpty then request_loop cfg outcomes key now 0 cfg.retry_attempts c1
      else ⟨some v, c1, [], 0⟩
    | (none, c1) => request_loop cfg outcomes key now 0 cfg.retry_attempts c1
  | none => request_loop cfg outcomes none now 0 cfg.retry_attempts c

/-- `run`'s resume filter: `[cnpj for cnpj in self.cnpjs if cnpj not in
self.completed_cnpjs]`, applied before any batching. -/
def pending_cnpjs (cnpjs completed : List String) : List String :=
  cnpjs.filter (fun c => decide (c ∉ completed))

/-- Fuelled slicing loop behind `batches`. -/
def batchesGo (size : Nat) : Nat → List String → List (List String)
  | 0, _ => []
  | _ + 1, [] => []
  | fuel + 1, x :: xs => (x :: xs).take size :: batchesGo size fuel ((x :: xs).drop size)

/-- The batch slicing of `run`: `pending_cnpjs[i:i + BATCH_SIZE]` for
`i in range(0, len(pending_cnpjs), BATCH_SIZE)` (the fuel covers every
slice as long as the configured size is positive). -/
def batches (size : Nat) (l : List String) : List (List String) :=
  batchesGo size l.length l

/-- The scheduler state of `process_batch` for one batch: identifiers not
yet started, identifiers currently holding the semaphore (in flight), and
identifiers finished. -/
structure SchedState where
  pending : List String
  running : List String
  done : List String

/-- The semaphore-bounded scheduling steps of `process_batch`:
`asyncio.Semaphore(MAX_CONCURRENCY)` lets a task start only while fewer
than `cap` tasks hold it; a running task may finish at any time. -/
inductive SchedStep (cap : Nat) : SchedState → SchedState → Prop where
  | start (s : SchedState) (c : String) (hp : c ∈ s.pending)
      (hr : s.running.length < cap) :
      SchedStep cap s ⟨s.pending.erase c, c :: s.running, s.done⟩
  | finish (s : SchedState) (c : String) (hr : c ∈ s.running) :
      SchedStep cap s ⟨s.pending, s.running.erase c, c :: s.done⟩

/-- A Python value as seen by the adapter parsers (parsed JSON). -/
inductive PyVal where
  | vNull
  | vBool (b : Bool)
  | vStr (s : String)
  | vInt (n : Int)
  | vDict (entries : List (String × PyVal))
  | vList (elems : List PyVal)

/-- Python truthiness of a value. -/
def PyVal.truthy : PyVal → Bool
  | PyVal.vNull => false
  | PyVal.vBool b => b
  | PyVal.vStr s => !s.isEmpty
  | PyVal.vInt n => n != 0
  | PyVal.vDict es => !es.isEmpty
  | PyVal.vList es => !es.isEmpty

/-- First binding of a key in a dict's entry list. -/
def lookupEntry : List (String × PyVal) → String → Option PyVal
  | [], _ => none
  | (k, v) :: rest, key => if k == key then some v else lookupEntry rest key

/-- Python `value.get(key, default)`: `none` models the `AttributeError`
raised when `value` is not a dict, which each adapter's `except` turns
into a miss. -/
def dictGet (v : PyVal) (key : String) (dflt : PyVal) : Option PyVal :=
  match v with
  | PyVal.vDict es =>
    some (match lookupEntry es key with
          | some x => x
          | none => dflt)
  | _ => none

/-- Python `value == s` for a string literal `s`: true only for an equal
string value. -/
def strEqVal (v : PyVal) (s : String) : Bool :=
  match v with
  | PyVal.vStr t => t == s
  | _ => false

/-- The `mei` computation of `get_from_cnpja`:
`"Sim" if data.get("company", {}).get("simei", {}).get("optant") else "Nao"`. -/
def cnpja_mei (data : PyVal) : Option String :=
  (dictGet data "company" (PyVal.vDict [])).bind (fun company =>
    (dictGet company "simei" (PyVal.vDict [])).bind (fun simei =>
      (dictGet simei "optant" PyVal.vNull).map (fun optant =>
        if optant.truthy then "Sim" else "Nao")))

/-- The `mei` computation of `get_from_brasil_api`:
`"Sim" if data.get("opcao_pelo_mei") else "Nao"`. -/
def brasil_api_mei (data : PyVal) : Option String :=
  (dictGet data "opcao_pelo_mei" PyVal.vNull).map (fun v =>
    if v.truthy then "Sim" else "Nao")

/-- The `mei` computation of `get_from_receita_ws`:
`"Sim" if data.get("simei", {}).get("optante") else "Nao"`. -/
def receita_ws_mei (data : PyVal) : Option String :=
  (dictGet data "simei" (PyVal.vDict [])).bind (fun simei =>
    (dictGet simei "optante" PyVal.vNull).map (fun v =>
      if v.truthy then "Sim" else "Nao"))

/-- The `mei` computation of `get_from_cnpj_ws`:
`simples = data.get("simples", {})`,
`"Sim" if simples.get("mei") == "Sim" else "Nao"`. -/
def cnpj_ws_mei (data : PyVal) : Option String :=
  (dictGet data "simples" (PyVal.vDict [])).bind (fun simples =>
    (dictGet simples "mei" PyVal.vNull).map (fun v =>
      if strEqVal v "Sim" then "Sim" else "Nao"))

/-- The `mei` computation of `get_from_minha_receita`:
`"Sim" if data.get("opcao_pelo_mei") else "Nao"`. -/
def minha_receita_mei (data : PyVal) : Option String :=
  (dictGet data "opcao_pelo_mei" PyVal.vNull).map (fun v =>
    if v.truthy then "Sim" else "Nao")

theorem mergeField_of_not_blank (a b : String) (h : isBlank a = false) :
    mergeField a b = a := by
  simp [mergeField, h]

theorem mergeField_idem (a b : String) :
    mergeField (mergeField a b) b = mergeField a b := by
  unfold mergeField
  cases h : isBlank a with
  | true => simp [h]
  | false => simp [h]

theorem mergeMei_idem (a b : String) :
    mergeMei (mergeMei a b) b = mergeMei a b := by
  unfold mergeMei
  cases h : (isBlank a || a == "?") with
  | true => simp [h]
  | false => simp [h]

theorem mergeSource_self (a : String) : mergeSource a a = a := by
  unfold mergeSource
  cases ha : a.isEmpty with
  | true => simp [ha]
  | false => simp [ha]

theorem mergeSource_empty_right (a : String) : mergeSource a "" = a := by
  unfold mergeSource
  have h : "".isEmpty = true := rfl
  simp [h]

theorem mergeSource_empty_left (b : String) :
    mergeSource "" b = if !b.isEmpty then b else "" := by
  unfold mergeSource
  have h : "".isEmpty = true := rfl
  simp [h]

theorem mergeSource_idem_of (a b : String) (h : a = "" ∨ b = "" ∨ a = b) :
    mergeSource (mergeSource a b) b = mergeSource a b := by
  rcases h with h | h | h
  · subst h
    cases hb : b.isEmpty with
    | true =>
      have h1 : mergeSource "" b = "" := by
        rw [mergeSource_empty_left, hb]
        rfl
      rw [h1]
      exact h1
    | false =>
      have h1 : mergeSource "" b = b := by
        rw [mergeSource_empty_left, hb]
        rfl
      rw [h1]
      exact mergeSource_self b
  · subst h
    rw [mergeSource_empty_right]
  · subst h
    rw [mergeSource_self]
    exact mergeSource_self a

/-- C2 (counterexample): the claim "if `r.field` is non-empty before the
merge then `merge(r, f).field` equals `r.field`" is false as stated: a
whitespace-only field is a non-empty string, yet `_merge_cnpj_data`
overwrites it, because the code's emptiness test also strips whitespace. -/
theorem merge_overwrite_c2_counterexample :
    ({ cnpj := "11111111111111", natureza := " " } : CNPJData).natureza ≠ ""
    ∧ (merge_cnpj_data { cnpj := "11111111111111", natureza := " " }
        (some { cnpj := "11111111111111", natureza := "206-2" })).natureza
        = "206-2"
    ∧ (merge_cnpj_data { cnpj := "11111111111111", natureza := " " }
        (some { cnpj := "11111111111111", natureza := "206-2" })).natureza
        ≠ ({ cnpj := "11111111111111", natureza := " " } : CNPJData).natureza := by
  refine ⟨by decide, by decide, by decide⟩

/-- C2 (amended): the field-wise merge never overwrites a non-blank field
(a field containing at least one non-whitespace character): for every such
field, `merge(r, f).field = r.field`.  Whitespace-only fields count as
empty and may be overwritten, exactly like the `mei` `"?"` sentinel; the
`cnpj` field is never touched; `source` (provenance) accumulates instead:
two differing non-empty tags are concatenated with `" + "`. -/
theorem merge_preserves_c2 (r f : CNPJData) :
    (isBlank r.nome_empresa = false →
      (merge_cnpj_data r (some f)).nome_empresa = r.nome_empresa)
    ∧ (isBlank r.nome_api_puxada = false →
      (merge_cnpj_data r (some f)).nome_api_puxada = r.nome_api_puxada)
    ∧ (isBlank r.natureza = false →
      (merge_cnpj_data r (some f)).natureza = r.natureza)
    ∧ (isBlank r.situacao = false →
      (merge_cnpj_data r (some f)).situacao = r.situacao)
    ∧ (isBlank r.porte = false →
      (merge_cnpj_data r (some f)).porte = r.porte)
    ∧ (isBlank r.mei = false → r.mei ≠ "?" →
      (merge_cnpj_data r (some f)).mei = r.mei)
    ∧ (isBlank r.telefone = false →
      (merge_cnpj_data r (some f)).telefone = r.telefone)
    ∧ (isBlank r.email = false →
      (merge_cnpj_data r (some f)).email = r.email)
    ∧ (merge_cnpj_data r (some f)).cnpj = r.cnpj
    ∧ (r.source ≠ "" → f.source ≠ "" → r.source ≠ f.source →
      (merge_cnpj_data r (some f)).source = r.source ++ " + " ++ f.source) := by
  refine ⟨fun h => mergeField_of_not_blank _ _ h,
          fun h => mergeField_of_not_blank _ _ h,
          fun h => mergeField_of_not_blank _ _ h,
          fun h => mergeField_of_not_blank _ _ h,
          fun h => mergeField_of_not_blank _ _ h,
          fun h hq => ?_,
          fun h => mergeField_of_not_blank _ _ h,
          fun h => mergeField_of_not_blank _ _ h,
          rfl,
          fun h1 h2 h3 => ?_⟩
  · show mergeMei r.mei f.mei = r.mei
    simp [mergeMei, h, hq]
  · show mergeSource r.source f.source = r.source ++ " + " ++ f.source
    have e1 : r.source.isEmpty = false := by
      cases he : r.source.isEmpty with
      | true => exact absurd ((String.isEmpty_iff r.source).mp he) h1
      | false => rfl
    have e2 : f.source.isEmpty = false := by
      cases he : f.source.isEmpty with
      | true => exact absurd ((String.isEmpty_iff f.source).mp he) h2
      | false => rfl
    simp [mergeSource, e1, e2, h3]

/-- C2 (witness): the amended preservation theorem applied to a concrete
record with a non-blank nature field. -/
theorem merge_preserves_c2_witness :
    (merge_cnpj_data { cnpj := "1", natureza := "206-2" }
      (some { cnpj := "1", natureza := "999-9" })).natureza = "206-2" :=
  (merge_preserves_c2 { cnpj := "1", natureza := "206-2" }
    { cnpj := "1", natureza := "999-9" }).2.2.1 (by decide)

/-- C3 (counterexample): merge is not idempotent as claimed: merging the
same fragment twice concatenates its source tag again, e.g. sources
`"CNPJá"` and `"BrasilAPI"` give `"CNPJá + BrasilAPI"` after one merge and
`"CNPJá + BrasilAPI + BrasilAPI"` after two. -/
theorem merge_idem_c3_counterexample :
    (merge_cnpj_data
      (merge_cnpj_data { cnpj := "1", source := "CNPJá" }
        (some { cnpj := "1", source := "BrasilAPI" }))
      (some { cnpj := "1", source := "BrasilAPI" })).source
      = "CNPJá + BrasilAPI + BrasilAPI"
    ∧ (merge_cnpj_data { cnpj := "1", source := "CNPJá" }
        (some { cnpj := "1", source := "BrasilAPI" })).source
      = "CNPJá + BrasilAPI"
    ∧ merge_cnpj_data
        (merge_cnpj_data { cnpj := "1", source := "CNPJá" }
          (some { cnpj := "1", source := "BrasilAPI" }))
        (some { cnpj := "1", source := "BrasilAPI" })
      ≠ merge_cnpj_data { cnpj := "1", source := "CNPJá" }
          (some { cnpj := "1", source := "BrasilAPI" }) := by
  refine ⟨by decide, by decide, by decide⟩

/-- C3 (amended): `merge(merge(r, f), f) = merge(r, f)` holds on every
field except the provenance field `source`; it holds including `source`
exactly unless `r.source` and `f.source` are both non-empty and differ (in
which case the second merge appends `f.source` again). -/
theorem merge_idem_c3 (r f : CNPJData) :
    ((merge_cnpj_data (merge_cnpj_data r (some f)) (some f)).cnpj
        = (merge_cnpj_data r (some f)).cnpj
      ∧ (merge_cnpj_data (merge_cnpj_data r (some f)) (some f)).nome_empresa
        = (merge_cnpj_data r (some f)).nome_empresa
      ∧ (merge_cnpj_data (merge_cnpj_data r (some f)) (some f)).nome_api_puxada
        = (merge_cnpj_data r (some f)).nome_api_puxada
      ∧ (merge_cnpj_data (merge_cnpj_data r (some f)) (some f)).natureza
        = (merge_cnpj_data r (some f)).natureza
      ∧ (merge_cnpj_data (merge_cnpj_data r (some f)) (some f)).situacao
        = (merge_cnpj_data r (some f)).situacao
      ∧ (merge_cnpj_data (merge_cnpj_data r (some f)) (some f)).porte
        = (merge_cnpj_data r (some f)).porte
      ∧ (merge_cnpj_data (merge_cnpj_data r (some f)) (some f)).mei
        = (merge_cnpj_data r (some f)).mei
      ∧ (merge_cnpj_data (merge_cnpj_data r (some f)) (some f)).telefone
        = (merge_cnpj_data r (some f)).telefone
      ∧ (merge_cnpj_data (merge_cnpj_data r (some f)) (some f)).email
        = (merge_cnpj_data r (some f)).email)
    ∧ ((r.source = "" ∨ f.source = "" ∨ r.source = f.source) →
        merge_cnpj_data (merge_cnpj_data r (some f)) (some f)
          = merge_cnpj_data r (some f)) := by
  constructor
  · exact ⟨rfl, mergeField_idem _ _, mergeField_idem _ _, mergeField_idem _ _,
      mergeField_idem _ _, mergeField_idem _ _, mergeMei_idem _ _,
      mergeField_idem _ _, mergeField_idem _ _⟩
  · intro h
    exact CNPJData.ext rfl (mergeField_idem _ _) (mergeField_idem _ _)
      (mergeField_idem _ _) (mergeField_idem _ _) (mergeField_idem _ _)
      (mergeMei_idem _ _) (mergeField_idem _ _) (mergeField_idem _ _)
      (mergeSource_idem_of _ _ h)

/-- C3 (witness): idempotence including the source field at a concrete
record/fragment pair whose source tags coincide. -/
theorem merge_idem_c3_witness :
    merge_cnpj_data
        (merge_cnpj_data { cnpj := "1", source := "ReceitaWS" }
          (some { cnpj := "1", nome_empresa := "ACME", source := "ReceitaWS" }))
        (some { cnpj := "1", nome_empresa := "ACME", source := "ReceitaWS" })
      = merge_cnpj_data { cnpj := "1", source := "ReceitaWS" }
          (some { cnpj := "1", nome_empresa := "ACME", source := "ReceitaWS" }) :=
  (merge_idem_c3 { cnpj := "1", source := "ReceitaWS" }
    { cnpj := "1", nome_empresa := "ACME", source := "ReceitaWS" }).2
    (Or.inr (Or.inr rfl))

theorem complete_has_name (d : CNPJData) (h : is_data_complete d = true) :
    isBlank d.nome_empresa = false := by
  cases hb : isBlank d.nome_empresa with
  | true => rw [is_data_complete, hb] at h; simp at h
  | false => rfl

theorem gstep_of_not_blank (p : Provider) (e : Bool) (frag : Option CNPJData)
    (st : CNPJData × List Provider) (h : isBlank st.1.nome_empresa = false) :
    gstep p e frag st = st := by
  simp [gstep, h]

theorem gstep_of_not_enabled (p : Provider) (frag : Option CNPJData)
    (st : CNPJData × List Provider) (h : isBlank st.1.nome_empresa = true) :
    gstep p false frag st = st := by
  simp [gstep, h]

theorem gstep_trace (p : Provider) (frag : Option CNPJData)
    (st : CNPJData × List Provider) (hb : isBlank st.1.nome_empresa = true) :
    (gstep p true frag st).2 = st.2 ++ [p] := by
  cases frag with
  | none => simp [gstep, hb]
  | some api =>
    by_cases hc : is_data_complete api = true
    · simp [gstep, hb, hc]
    · cases hp : p == Provider.receitaWs with
      | true => simp [gstep, hb, hc, hp]
      | false => simp [gstep, hb, hc, hp]

theorem gstep_blank (p : Provider) (frag : Option CNPJData)
    (st : CNPJData × List Provider) (hb : isBlank st.1.nome_empresa = true) :
    isBlank (gstep p true frag st).1.nome_empresa = !(fragmentStops p frag) := by
  cases frag with
  | none => simp [gstep, hb, fragmentStops]
  | some api =>
    by_cases hc : is_data_complete api = true
    · have hn := complete_has_name api hc
      simp [gstep, hb, hc, fragmentStops, merge_cnpj_data, mergeField, hn]
    · have hc' : is_data_complete api = false := by
        cases h : is_data_complete api with
        | true => exact absurd h hc
        | false => rfl
      cases hp : p == Provider.receitaWs with
      | true =>
        simp [gstep, hb, hc', hp, fragmentStops, merge_cnpj_data, mergeField]
      | false =>
        simp [gstep, hb, hc', hp, fragmentStops]

theorem chainAll_of_not_blank (cfg : ApiConfig) (resp : ProviderResponses) :
    ∀ (ps : List Provider) (st : CNPJData × List Provider),
      isBlank st.1.nome_empresa = false → chainAll cfg resp ps st = st := by
  intro ps
  induction ps with
  | nil => intro st _; rfl
  | cons p ps ih =>
    intro st h
    rw [chainAll, gstep_of_not_blank p _ _ st h]
    exact ih st h

theorem chainAll_trace (cfg : ApiConfig) (resp : ProviderResponses) :
    ∀ (ps : List Provider) (st : CNPJData × List Provider),
      isBlank st.1.nome_empresa = true →
      (chainAll cfg resp ps st).2
        = st.2 ++ takeThrough (fun p => fragmentStops p (respOf resp p))
            (ps.filter (enabledFlag cfg)) := by
  intro ps
  induction ps with
  | nil => intro st _; simp [chainAll, takeThrough]
  | cons p ps ih =>
    intro st hb
    rw [chainAll]
    cases he : enabledFlag cfg p with
    | false =>
      rw [gstep_of_not_enabled p _ st hb, ih st hb]
      simp [List.filter_cons, he]
    | true =>
      have ht := gstep_trace p (respOf resp p) st hb
      have hbn := gstep_blank p (respOf resp p) st hb
      cases hs : fragmentStops p (respOf resp p) with
      | true =>
        have hnb : isBlank (gstep p true (respOf resp p) st).1.nome_empresa = false := by
          rw [hbn, hs]
          rfl
        rw [chainAll_of_not_blank cfg resp ps _ hnb, ht]
        simp [List.filter_cons, he, takeThrough, hs]
      | false =>
        have hb' : isBlank (gstep p true (respOf resp p) st).1.nome_empresa = true := by
          rw [hbn, hs]
          rfl
        rw [ih _ hb', ht]
        simp [List.filter_cons, he, takeThrough, hs]

theorem step_cnpja_eq (cfg : ApiConfig) (resp : ProviderResponses)
    (st : CNPJData × List Provider) (hb : isBlank st.1.nome_empresa = true) :
    step_cnpja cfg resp st
      = gstep Provider.cnpja (enabledFlag cfg Provider.cnpja)
          (respOf resp Provider.cnpja) st := by
  cases hfa : resp.fromCnpja with
  | none => simp [step_cnpja, gstep, enabledFlag, respOf, hb, hfa]
  | some api =>
    by_cases hc : is_data_complete api = true
    · simp [step_cnpja, gstep, enabledFlag, respOf, hb, hfa, hc, providerTag]
    · simp [step_cnpja, gstep, enabledFlag, respOf, hb, hfa, hc]

theorem step_brasil_api_eq (cfg : ApiConfig) (resp : ProviderResponses)
    (st : CNPJData × List Provider) :
    step_brasil_api cfg resp st
      = gstep Provider.brasilApi (enabledFlag cfg Provider.brasilApi)
          (respOf resp Provider.brasilApi) st := by
  cases hfa : resp.fromBrasilApi with
  | none => simp [step_brasil_api, gstep, enabledFlag, respOf, hfa]
  | some api =>
    by_cases hc : is_data_complete api = true
    · simp [step_brasil_api, gstep, enabledFlag, respOf, hfa, hc, providerTag]
    · simp [step_brasil_api, gstep, enabledFlag, respOf, hfa, hc]

theorem step_receita_ws_eq (cfg : ApiConfig) (resp : ProviderResponses)
    (st : CNPJData × List Provider) :
    step_receita_ws cfg resp st
      = gstep Provider.receitaWs (enabledFlag cfg Provider.receitaWs)
          (respOf resp Provider.receitaWs) st := by
  cases hfa : resp.fromReceitaWs with
  | none => simp [step_receita_ws, gstep, enabledFlag, respOf, hfa]
  | some api =>
    by_cases hc : is_data_complete api = true
    · simp [step_receita_ws, gstep, enabledFlag, respOf, hfa, hc, providerTag]
    · simp [step_receita_ws, gstep, enabledFlag, respOf, hfa, hc]

theorem step_cnpj_ws_eq (cfg : ApiConfig) (resp : ProviderResponses)
    (st : CNPJData × List Provider) :
    step_cnpj_ws cfg resp st
      = gstep Provider.cnpjWs (enabledFlag cfg Provider.cnpjWs)
          (respOf resp Provider.cnpjWs) st := by
  cases hfa : resp.fromCnpjWs with
  | none => simp [step_cnpj_ws, gstep, enabledFlag, respOf, hfa]
  | some api =>
    by_cases hc : is_data_complete api = true
    · simp [step_cnpj_ws, gstep, enabledFlag, respOf, hfa, hc, providerTag]
    · simp [step_cnpj_ws, gstep, enabledFlag, respOf, hfa, hc]

theorem step_minha_receita_eq (cfg : ApiConfig) (resp : ProviderResponses)
    (st : CNPJData × List Provider) :
    step_minha_receita cfg resp st
      = gstep Provider.minhaReceita (enabledFlag cfg Provider.minhaReceita)
          (respOf resp Provider.minhaReceita) st := by
  cases hfa : resp.fromMinhaReceita with
  | none => simp [step_minha_receita, gstep, enabledFlag, respOf, hfa]
  | some api =>
    by_cases hc : is_data_complete api = true
    · simp [step_minha_receita, gstep, enabledFlag, respOf, hfa, hc, providerTag]
    · simp [step_minha_receita, gstep, enabledFlag, respOf, hfa, hc]

theorem scrape_eq_chainAll (cfg : ApiConfig) (resp : ProviderResponses) (c : String) :
    scrape_cnpj_chain cfg resp c
      = chainAll cfg resp providerOrder (initCNPJData c, []) := by
  have h0 : isBlank (initCNPJData c, ([] : List Provider)).1.nome_empresa = true := rfl
  rw [scrape_cnpj_chain, providerOrder]
  simp only [chainAll]
  rw [step_cnpja_eq cfg resp _ h0, step_brasil_api_eq, step_receita_ws_eq,
    step_cnpj_ws_eq, step_minha_receita_eq]

/-- C1: for every identifier, the fallback chain queries exactly the
providers of the fixed priority order CNPJá → BrasilAPI → ReceitaWS →
CNPJ.ws → Minha Receita restricted to the enabled ones, in that order, up
to and including the first provider at which the chain stops; a provider
stops the chain exactly when its fragment satisfies the completeness
predicate (`_is_data_complete`), except ReceitaWS, which stops it whenever
its fragment carries a non-blank name.  Moreover ReceitaWS is the sole
special case: a returned fragment that is not complete is still merged
into the record and the source is tagged `"ReceitaWS (partial)"` (so the
chain continues past ReceitaWS only if the name field is still empty). -/
theorem chain_priority_c1 (cfg : ApiConfig) (resp : ProviderResponses) (c : String)
    (st : CNPJData × List Provider) (f : CNPJData) :
    (scrape_cnpj_chain cfg resp c).2
        = takeThrough (fun p => fragmentStops p (respOf resp p))
            (providerOrder.filter (enabledFlag cfg))
    ∧ (isBlank st.1.nome_empresa = true → cfg.receita_ws_enabled = true →
        resp.fromReceitaWs = some f → is_data_complete f = false →
        step_receita_ws cfg resp st
          = ({ merge_cnpj_data st.1 (some f) with source := "ReceitaWS (partial)" },
              st.2 ++ [Provider.receitaWs])) := by
  constructor
  · rw [scrape_eq_chainAll]
    have h := chainAll_trace cfg resp providerOrder (initCNPJData c, []) rfl
    simpa using h
  · intro hb he hr hc
    simp [step_receita_ws, hb, he, hr, hc]

/-- C1 (witness): with every provider enabled, CNPJá and BrasilAPI missing
and ReceitaWS returning an incomplete fragment that carries a name, the
ReceitaWS block merges the partial fragment, tags it
`"ReceitaWS (partial)"`, and the chain stops there. -/
theorem chain_priority_c1_witness :
    (scrape_cnpj_chain ⟨true, true, true, true, true⟩
        ⟨none, none, some { cnpj := "07134405000161", nome_empresa := "ACME LTDA" },
          none, none⟩ "07134405000161").2
        = takeThrough
            (fun p => fragmentStops p
              (respOf ⟨none, none,
                some { cnpj := "07134405000161", nome_empresa := "ACME LTDA" },
                none, none⟩ p))
            (providerOrder.filter (enabledFlag ⟨true, true, true, true, true⟩))
    ∧ step_receita_ws ⟨true, true, true, true, true⟩
        ⟨none, none, some { cnpj := "07134405000161", nome_empresa := "ACME LTDA" },
          none, none⟩
        (initCNPJData "07134405000161", [])
        = ({ merge_cnpj_data (initCNPJData "07134405000161")
              (some { cnpj := "07134405000161", nome_empresa := "ACME LTDA" })
              with source := "ReceitaWS (partial)" }, [Provider.receitaWs]) := by
  have h := chain_priority_c1 ⟨true, true, true, true, true⟩
    ⟨none, none, some { cnpj := "07134405000161", nome_empresa := "ACME LTDA" },
      none, none⟩ "07134405000161"
    (initCNPJData "07134405000161", [])
    { cnpj := "07134405000161", nome_empresa := "ACME LTDA" }
  exact ⟨h.1, h.2 rfl rfl rfl (by decide)⟩

theorem request_loop_non200 (cfg : ReqConfig) (outcomes : Nat → Attempt)
    (key : Option String) (now : Int)
    (h : ∀ i, ∃ s p, outcomes i = Attempt.response s p ∧ s ≠ 200) :
    ∀ (remaining attempt : Nat) (c : SimpleCache),
      request_loop cfg outcomes key now attempt remaining c
        = ⟨none, c, [], remaining⟩ := by
  intro remaining
  induction remaining with
  | zero => intro attempt c; rfl
  | succ r ih =>
    intro attempt c
    obtain ⟨s, p, hs, hne⟩ := h attempt
    have hb : (s == 200) = false := by
      cases hbeq : s == 200 with
      | true => exact absurd (eq_of_beq hbeq) hne
      | false => rfl
    rw [request_loop, hs]
    simp only [hb, Bool.false_eq_true, if_false, ih (attempt + 1) c]

/-- C4 (counterexample): the claim "for a non-2xx completed response
exactly one attempt is made" is false: with `RETRY_ATTEMPTS = 3` and every
attempt completing with HTTP 404, `make_request` issues 3 fetches, not 1. -/
theorem non200_retry_c4_counterexample :
    (make_request ⟨3, 1⟩ (fun _ => Attempt.response 404 []) none ⟨[], 3600⟩ 0).fetches = 3
    ∧ (make_request ⟨3, 1⟩ (fun _ => Attempt.response 404 []) none ⟨[], 3600⟩ 0).fetches ≠ 1 := by
  refine ⟨by decide, by decide⟩

/-- C4 (amended): a completed response with status other than 200 does not
short-circuit the attempt loop: when every attempt completes with a
non-200 status, `make_request` issues exactly `RETRY_ATTEMPTS` fetches —
so non-200 responses do consume attempts, unlike the claim — but performs
no backoff sleep (sleeps happen only for transport exceptions), never
caches anything, raises nothing, and returns the silent miss `None`.
(The code tests `status == 200`, so even other 2xx statuses take this
path.) -/
theorem non200_retry_c4 (cfg : ReqConfig) (outcomes : Nat → Attempt)
    (c : SimpleCache) (now : Int)
    (h : ∀ i, ∃ s p, outcomes i = Attempt.response s p ∧ s ≠ 200) :
    make_request cfg outcomes none c now
      = ⟨none, c, [], cfg.retry_attempts⟩ := by
  rw [make_request]
  exact request_loop_non200 cfg outcomes none now h cfg.retry_attempts 0 c

/-- C4 (witness): two attempts, both 404, give two fetches, no sleeps and
a miss. -/
theorem non200_retry_c4_witness :
    make_request ⟨2, 1⟩ (fun _ => Attempt.response 404 []) none ⟨[], 3600⟩ 0
      = ⟨none, ⟨[], 3600⟩, [], 2⟩ :=
  non200_retry_c4 ⟨2, 1⟩ (fun _ => Attempt.response 404 []) ⟨[], 3600⟩ 0
    (fun _ => ⟨404, [], rfl, by decide⟩)

theorem request_loop_exc (cfg : ReqConfig) (outcomes : Nat → Attempt)
    (key : Option String) (now : Int)
    (h : ∀ i, outcomes i = Attempt.exc) :
    ∀ (remaining attempt : Nat) (c : SimpleCache),
      request_loop cfg outcomes key now attempt remaining c
        = ⟨none, c,
            ((List.range' attempt remaining).filter
              (fun i => decide (i < cfg.retry_attempts - 1))).map
              (fun i => cfg.retry_delay_min * 2 ^ i),
            remaining⟩ := by
  intro remaining
  induction remaining with
  | zero => intro attempt c; rfl
  | succ r ih =>
    intro attempt c
    rw [request_loop, h attempt, List.range'_succ]
    by_cases ha : attempt < cfg.retry_attempts - 1
    · rw [if_pos ha, ih (attempt + 1) c]
      simp [List.filter_cons, ha]
    · rw [if_neg ha, ih (attempt + 1) c]
      simp [List.filter_cons, ha]

theorem range_filter_lt (n : Nat) :
    (List.range n).filter (fun i => decide (i < n - 1)) = List.range (n - 1) := by
  cases n with
  | zero => rfl
  | succ m =>
    simp only [Nat.succ_sub_one]
    rw [List.range_succ, List.filter_append]
    have h1 : (List.range m).filter (fun i => decide (i < m)) = List.range m :=
      List.filter_eq_self.mpr (fun a ha => by simpa using List.mem_range.mp ha)
    have h2 : ([m].filter (fun i => decide (i < m))) = [] := by simp
    rw [h1, h2, List.append_nil]

/-- C5: when every attempt raises a transport exception, `make_request`
configured with `n` retry attempts performs exactly `n` fetches, sleeps
`delay_min * 2 ^ attempt` between consecutive attempts (after attempts
`0 .. n-2`), returns the definitive miss `None`, and (being a total
function of its attempt outcomes) lets no exception surface to the
caller.  With `retries = 3` this is exactly 3 attempts. -/
theorem retry_exhaust_c5 (cfg : ReqConfig) (outcomes : Nat → Attempt)
    (c : SimpleCache) (now : Int) (h : ∀ i, outcomes i = Attempt.exc) :
    (make_request cfg outcomes none c now).result = none
    ∧ (make_request cfg outcomes none c now).fetches = cfg.retry_attempts
    ∧ (make_request cfg outcomes none c now).sleeps
        = (List.range (cfg.retry_attempts - 1)).map
            (fun i => cfg.retry_delay_min * 2 ^ i) := by
  have hl := request_loop_exc cfg outcomes none now h cfg.retry_attempts 0 c
  rw [make_request, hl]
  refine ⟨rfl, rfl, ?_⟩
  rw [← List.range_eq_range', range_filter_lt]

/-- C5 (witness): with `retries = 3` and every attempt timing out, exactly
3 attempts are made, the result is a miss, and the sleeps follow the
exponential schedule. -/
theorem retry_exhaust_c5_witness :
    (make_request ⟨3, 1⟩ (fun _ => Attempt.exc) none ⟨[], 3600⟩ 0).result = none
    ∧ (make_request ⟨3, 1⟩ (fun _ => Attempt.exc) none ⟨[], 3600⟩ 0).fetches = 3
    ∧ (make_request ⟨3, 1⟩ (fun _ => Attempt.exc) none ⟨[], 3600⟩ 0).sleeps
        = (List.range 2).map (fun i => (1 : ℚ) * 2 ^ i) :=
  retry_exhaust_c5 ⟨3, 1⟩ (fun _ => Attempt.exc) ⟨[], 3600⟩ 0 (fun _ => rfl)

theorem lookup_filter_ne (k : String) :
    ∀ (l : List (String × Payload × Int)),
      (l.filter (fun e => e.1 != k)).lookup k = none := by
  intro l
  induction l with
  | nil => rfl
  | cons e rest ih =>
    cases hk : e.1 == k with
    | true =>
      have : (e.1 != k) = false := by simp [bne, hk]
      rw [List.filter_cons, this]
      simpa using ih
    | false =>
      have h1 : (e.1 != k) = true := by simp [bne, hk]
      rw [List.filter_cons, h1]
      simp only [if_true]
      have h2 : (k == e.1) = false := by
        have := beq_eq_false_iff_ne.mp hk
        exact beq_eq_false_iff_ne.mpr (Ne.symm this)
      cases e with
      | mk e1 e2 =>
        simp [List.lookup, h2, ih]

theorem request_loop_fetches_pos (cfg : ReqConfig) (outcomes : Nat → Attempt)
    (key : Option String) (now : Int) (attempt : Nat) (n : Nat) (c : SimpleCache)
    (hn : 1 ≤ n) :
    1 ≤ (request_loop cfg outcomes key now attempt n c).fetches := by
  cases n with
  | zero => omega
  | succ r =>
    rw [request_loop]
    cases outcomes attempt with
    | response status payload =>
      cases hs : status == 200 with
      | true =>
        cases key with
        | some k => simp [hs]
        | none => simp [hs]
      | false => simp [hs]
    | exc =>
      by_cases ha : attempt < cfg.retry_attempts - 1
      · simp [ha]
      · simp [ha]

/-- C6 (counterexample): the claim "two lookups of the same key within the
TTL trigger exactly one underlying fetch" is false: a 200 response whose
parsed payload is falsy (here the empty JSON object) is cached, but the
cached value fails the code's `if cached_data:` truthiness test, so the
second lookup within the TTL fetches again — two fetches, and the second
call is not served from the cache. -/
theorem cache_fetch_c6_counterexample :
    (make_request ⟨1, 1⟩ (fun _ => Attempt.response 200 []) (some "k") ⟨[], 100⟩ 0).fetches = 1
    ∧ (make_request ⟨1, 1⟩ (fun _ => Attempt.response 200 [])
        (some "k")
        (make_request ⟨1, 1⟩ (fun _ => Attempt.response 200 []) (some "k") ⟨[], 100⟩ 0).cache
        10).fetches = 1
    ∧ (make_request ⟨1, 1⟩ (fun _ => Attempt.response 200 [])
        (some "k")
        (make_request ⟨1, 1⟩ (fun _ => Attempt.response 200 []) (some "k") ⟨[], 100⟩ 0).cache
        10).fetches ≠ 0 := by
  refine ⟨by decide, by decide, by decide⟩

/-- C6 (amended): provided the first fetch's parsed payload is truthy
(non-empty), two `make_request` lookups of the same key within the TTL
trigger exactly one underlying fetch: the first call fetches once and
caches the value, and a second call within the TTL performs zero fetches
and returns the cached value.  A lookup after the TTL has elapsed finds
the entry absent, lazily evicts it on that read, and fetches anew.
Falsy payloads (e.g. an empty JSON object) are cached but ignored on read
and re-fetched (see the counterexample). -/
theorem cache_fetch_c6 (cfg : ReqConfig) (out1 out2 : Nat → Attempt)
    (k : String) (v : Payload) (c0 : SimpleCache) (t0 t1 : Int)
    (h0 : out1 0 = Attempt.response 200 v)
    (hlk : c0.cache.lookup k = none)
    (hv : v ≠ [])
    (hn : 1 ≤ cfg.retry_attempts) :
    make_request cfg out1 (some k) c0 t0
      = ⟨some v, SimpleCache.set c0 k v t0, [], 1⟩
    ∧ (t1 - t0 < c0.ttl →
        make_request cfg out2 (some k) (SimpleCache.set c0 k v t0) t1
          = ⟨some v, SimpleCache.set c0 k v t0, [], 0⟩)
    ∧ (c0.ttl ≤ t1 - t0 →
        (SimpleCache.get (SimpleCache.set c0 k v t0) k t1).1 = none
        ∧ ((SimpleCache.get (SimpleCache.set c0 k v t0) k t1).2).cache.lookup k = none
        ∧ 1 ≤ (make_request cfg out2 (some k) (SimpleCache.set c0 k v t0) t1).fetches) := by
  have hvE : v.isEmpty = false := by
    cases v with
    | nil => exact absurd rfl hv
    | cons a l => rfl
  have hget0 : SimpleCache.get c0 k t0 = (none, c0) := by
    rw [SimpleCache.get, hlk]
  have hlk2 : (SimpleCache.set c0 k v t0).cache.lookup k = some (v, t0) := by
    rw [SimpleCache.set]
    simp [List.lookup]
  refine ⟨?_, ?_, ?_⟩
  · simp only [make_request]
    rw [hget0]
    obtain ⟨m, hm⟩ : ∃ m, cfg.retry_attempts = m + 1 :=
      ⟨cfg.retry_attempts - 1, by omega⟩
    rw [hm]
    simp [request_loop, h0]
  · intro ht
    simp only [make_request, SimpleCache.get]
    rw [hlk2]
    simp [SimpleCache.set, ht, hvE]
  · intro ht
    have hnotlt : ¬ t1 - t0 < c0.ttl := by omega
    refine ⟨?_, ?_, ?_⟩
    · simp only [SimpleCache.get]
      rw [hlk2]
      simp [SimpleCache.set, hnotlt]
    · simp only [SimpleCache.get]
      rw [hlk2]
      simp only [SimpleCache.set, hnotlt, if_false]
      exact lookup_filter_ne k _
    · simp only [make_request, SimpleCache.get]
      rw [hlk2]
      simp only [SimpleCache.set, hnotlt, if_false]
      exact request_loop_fetches_pos cfg out2 (some k) t1 0 cfg.retry_attempts _ hn

/-- C6 (witness): a concrete truthy payload cached at time 0 and looked up
again at time 10 with TTL 100 is served from the cache with zero fetches. -/
theorem cache_fetch_c6_witness :
    make_request ⟨1, 1⟩ (fun _ => Attempt.exc) (some "k")
        (SimpleCache.set ⟨[], 100⟩ "k" [("email", "a@b.c")] 0) 10
      = ⟨some [("email", "a@b.c")], SimpleCache.set ⟨[], 100⟩ "k" [("email", "a@b.c")] 0, [], 0⟩ :=
  (cache_fetch_c6 ⟨1, 1⟩ (fun _ => Attempt.response 200 [("email", "a@b.c")])
    (fun _ => Attempt.exc) "k" [("email", "a@b.c")] ⟨[], 100⟩ 0 10
    rfl rfl (by decide) (by decide)).2.1 (by decide)

theorem batchesGo_subset (size : Nat) :
    ∀ (fuel : Nat) (l b : List String), b ∈ batchesGo size fuel l →
      ∀ x ∈ b, x ∈ l := by
  intro fuel
  induction fuel with
  | zero =>
    intro l b hb
    simp [batchesGo] at hb
  | succ f ih =>
    intro l b hb x hx
    cases l with
    | nil => simp [batchesGo] at hb
    | cons y ys =>
      rw [batchesGo] at hb
      rcases List.mem_cons.mp hb with h | h
      · subst h
        exact List.mem_of_mem_take hx
      · exact List.mem_of_mem_drop (ih _ b h x hx)

/-- C7: an identifier already in the `completed` checkpoint set at startup
is filtered out of the pending list before batching, so it appears in no
batch; since `process_batch` creates one `process_single` task per batch
member — and every provider or enrichment call of a run happens inside
`process_single` — such an identifier triggers zero provider/enrichment
calls and never occupies a semaphore (worker) slot. -/
theorem resume_skip_c7 (cnpjs completed : List String) (size : Nat)
    (c : String) (hc : c ∈ completed) :
    c ∉ pending_cnpjs cnpjs completed
    ∧ ∀ b ∈ batches size (pending_cnpjs cnpjs completed), c ∉ b := by
  have hp : c ∉ pending_cnpjs cnpjs completed := by
    intro hmem
    have h2 := (List.mem_filter.mp hmem).2
    simp at h2
    exact h2 hc
  refine ⟨hp, ?_⟩
  intro b hb hx
  rw [batches] at hb
  exact hp (batchesGo_subset size _ _ b hb c hx)

/-- C7 (witness): a concrete completed identifier is absent from the
pending list and from every batch. -/
theorem resume_skip_c7_witness :
    "11111111111111" ∉ pending_cnpjs ["11111111111111", "22222222222222"] ["11111111111111"] :=
  (resume_skip_c7 ["11111111111111", "22222222222222"] ["11111111111111"] 1
    "11111111111111" (by simp)).1

/-- C9: starting from a batch state with no task in flight, every state
reachable under the semaphore-guarded steps of `process_batch` (a task may
start only while fewer than `MAX_CONCURRENCY` tasks hold the semaphore)
has at most `MAX_CONCURRENCY` in-flight resolutions. -/
theorem concurrency_bound_c9 (cap : Nat) (init s : SchedState)
    (hinit : init.running = [])
    (hreach : Relation.ReflTransGen (SchedStep cap) init s) :
    s.running.length ≤ cap := by
  induction hreach with
  | refl =>
    rw [hinit]
    exact Nat.zero_le cap
  | tail hab hstep ih =>
    cases hstep with
    | start c hp hr =>
      simpa using hr
    | finish c hr =>
      exact le_trans (List.erase_sublist c _).length_le ih

/-- C9 (witness): with `MAX_CONCURRENCY = 1`, after admitting one task
from a singleton batch the in-flight count is within the bound. -/
theorem concurrency_bound_c9_witness :
    (SchedState.mk (List.erase ["11111111111111"] "11111111111111")
      ["11111111111111"] []).running.length ≤ 1 :=
  concurrency_bound_c9 1 ⟨["11111111111111"], [], []⟩ _ rfl
    (Relation.ReflTransGen.single
      (SchedStep.start ⟨["11111111111111"], [], []⟩ "11111111111111"
        (by simp) (by simp)))

theorem gstep_result_merge (p : Provider) (frag : CNPJData)
    (st : CNPJData × List Provider) (hb : isBlank st.1.nome_empresa = true) :
    (gstep p true (some frag) st).1 = st.1
    ∨ ∃ tag, tag ≠ "" ∧ (gstep p true (some frag) st).1
        = { merge_cnpj_data st.1 (some frag) with source := tag } := by
  by_cases hc : is_data_complete frag = true
  · refine Or.inr ⟨providerTag p, ?_, by simp [gstep, hb, hc]⟩
    cases p <;> decide
  · cases hp : p == Provider.receitaWs with
    | true =>
      exact Or.inr ⟨"ReceitaWS (partial)", by decide, by simp [gstep, hb, hc, hp]⟩
    | false =>
      exact Or.inl (by simp [gstep, hb, hc, hp])

theorem gstep_mei_inv (p : Provider) (e : Bool) (frag : Option CNPJData)
    (st : CNPJData × List Provider)
    (hfrag : ∀ f, frag = some f → f.mei = "Sim" ∨ f.mei = "Nao")
    (h1 : st.1.source = "" → st.1.mei = "?")
    (h2 : st.1.source ≠ "" → st.1.mei = "Sim" ∨ st.1.mei = "Nao") :
    ((gstep p e frag st).1.source = "" → (gstep p e frag st).1.mei = "?")
    ∧ ((gstep p e frag st).1.source ≠ "" →
        (gstep p e frag st).1.mei = "Sim" ∨ (gstep p e frag st).1.mei = "Nao") := by
  cases hb : isBlank st.1.nome_empresa with
  | false =>
    rw [gstep_of_not_blank p e frag st hb]
    exact ⟨h1, h2⟩
  | true =>
    cases e with
    | false =>
      rw [gstep_of_not_enabled p frag st hb]
      exact ⟨h1, h2⟩
    | true =>
      cases frag with
      | none =>
        have hn : (gstep p true none st).1 = st.1 := by simp [gstep, hb]
        rw [hn]
        exact ⟨h1, h2⟩
      | some f =>
        have hm := hfrag f rfl
        have hmei : mergeMei st.1.mei f.mei = "Sim" ∨ mergeMei st.1.mei f.mei = "Nao" := by
          by_cases hsrc : st.1.source = ""
          · have hq := h1 hsrc
            have hcond : (isBlank "?" || ("?" == "?")) = true := by decide
            rw [mergeMei, hq, hcond]
            simpa using hm
          · rcases h2 hsrc with h | h
            · have hcond : (isBlank "Sim" || ("Sim" == "?")) = false := by decide
              rw [mergeMei, h, hcond]
              simp
            · have hcond : (isBlank "Nao" || ("Nao" == "?")) = false := by decide
              rw [mergeMei, h, hcond]
              simp
        rcases gstep_result_merge p f st hb with h | ⟨tag, htag, h⟩
        · rw [h]
          exact ⟨h1, h2⟩
        · rw [h]
          exact ⟨fun hs => absurd hs htag, fun _ => hmei⟩

theorem chainAll_mei_inv (cfg : ApiConfig) (resp : ProviderResponses)
    (hresp : ∀ p f, respOf resp p = some f → f.mei = "Sim" ∨ f.mei = "Nao") :
    ∀ (ps : List Provider) (st : CNPJData × List Provider),
      (st.1.source = "" → st.1.mei = "?") →
      (st.1.source ≠ "" → st.1.mei = "Sim" ∨ st.1.mei = "Nao") →
      ((chainAll cfg resp ps st).1.source = "" →
        (chainAll cfg resp ps st).1.mei = "?")
      ∧ ((chainAll cfg resp ps st).1.source ≠ "" →
          (chainAll cfg resp ps st).1.mei = "Sim"
          ∨ (chainAll cfg resp ps st).1.mei = "Nao") := by
  intro ps
  induction ps with
  | nil =>
    intro st h1 h2
    exact ⟨h1, h2⟩
  | cons p ps ih =>
    intro st h1 h2
    rw [chainAll]
    have hg := gstep_mei_inv p (enabledFlag cfg p) (respOf resp p) st
      (fun f hf => hresp p f hf) h1 h2
    exact ih _ hg.1 hg.2

theorem finalize_contact_mei (d : CNPJData) : (finalize_contact d).mei = d.mei := rfl

theorem finalize_contact_source (d : CNPJData) :
    (finalize_contact d).source = d.source := rfl

/-- C8 (counterexample): the claim that every record block's MEI line is
`"Sim"` or `"Nao"` is false: an identifier whose every queried provider
misses is still resolved and written to the result log, and its block
carries the unknown sentinel, `MEI: ?`. -/
theorem mei_output_c8_counterexample :
    (save_result_lines (scrape_cnpj_result ⟨true, false, false, false, false⟩
        ⟨none, none, none, none, none⟩ "00000000000191"))[6]? = some "MEI: ?"
    ∧ ("MEI: ?" : String) ≠ "MEI: Sim"
    ∧ ("MEI: ?" : String) ≠ "MEI: Nao" := by
  refine ⟨by decide, by decide, by decide⟩

/-- C8 (amended): every record block follows the documented 10-line form
and its 7th line is `"MEI: " ++ mei`.  Provided every provider fragment
carries a definite `"Sim"`/`"Nao"` mei (which the adapters guarantee, see
C10), the MEI line's value is `"Sim"` or `"Nao"` whenever at least one
provider fragment was merged (equivalently, the provenance tag is
non-empty); when no provider contributed, the record is still written and
the MEI line carries the initial sentinel `"?"`. -/
theorem mei_output_c8 (cfg : ApiConfig) (resp : ProviderResponses) (cnpj : String)
    (hresp : ∀ p f, respOf resp p = some f → f.mei = "Sim" ∨ f.mei = "Nao") :
    (save_result_lines (scrape_cnpj_result cfg resp cnpj))[6]?
        = some ("MEI: " ++ (scrape_cnpj_result cfg resp cnpj).mei)
    ∧ ((scrape_cnpj_result cfg resp cnpj).source ≠ "" →
        (scrape_cnpj_result cfg resp cnpj).mei = "Sim"
        ∨ (scrape_cnpj_result cfg resp cnpj).mei = "Nao")
    ∧ ((scrape_cnpj_result cfg resp cnpj).source = "" →
        (scrape_cnpj_result cfg resp cnpj).mei = "?") := by
  have hchain := chainAll_mei_inv cfg resp hresp providerOrder (initCNPJData cnpj, [])
    (fun _ => rfl) (fun hs => absurd rfl hs)
  have he : scrape_cnpj_result cfg resp cnpj
      = finalize_contact (chainAll cfg resp providerOrder (initCNPJData cnpj, [])).1 := by
    rw [scrape_cnpj_result, scrape_eq_chainAll]
  refine ⟨rfl, ?_, ?_⟩
  · intro hs
    rw [he, finalize_contact_source] at hs
    rw [he, finalize_contact_mei]
    exact hchain.2 hs
  · intro hs
    rw [he, finalize_contact_source] at hs
    rw [he, finalize_contact_mei]
    exact hchain.1 hs

/-- C8 (witness): with CNPJá returning a complete fragment with a definite
mei, the written record's MEI value is definite. -/
theorem mei_output_c8_witness :
    (scrape_cnpj_result ⟨true, false, false, false, false⟩
        ⟨some { cnpj := "00000000000191", nome_empresa := "PETROBRAS",
                natureza := "204-6", mei := "Nao" },
          none, none, none, none⟩ "00000000000191").mei = "Sim"
    ∨ (scrape_cnpj_result ⟨true, false, false, false, false⟩
        ⟨some { cnpj := "00000000000191", nome_empresa := "PETROBRAS",
                natureza := "204-6", mei := "Nao" },
          none, none, none, none⟩ "00000000000191").mei = "Nao" :=
  (mei_output_c8 ⟨true, false, false, false, false⟩
    ⟨some { cnpj := "00000000000191", nome_empresa := "PETROBRAS",
            natureza := "204-6", mei := "Nao" },
      none, none, none, none⟩ "00000000000191"
    (fun p f h => by
      cases p with
      | cnpja => exact Or.inr (by rw [← Option.some.inj h])
      | brasilApi => exact Option.noConfusion h
      | receitaWs => exact Option.noConfusion h
      | cnpjWs => exact Option.noConfusion h
      | minhaReceita => exact Option.noConfusion h)).2.1 (by decide)

theorem mei_map_sim_nao (o : Option PyVal) (g : PyVal → Bool) (m : String)
    (h : o.map (fun v => if g v then "Sim" else "Nao") = some m) :
    m = "Sim" ∨ m = "Nao" := by
  rcases Option.map_eq_some'.mp h with ⟨v, _, hm⟩
  cases hg : g v with
  | true =>
    rw [hg] at hm
    simp at hm
    exact Or.inl hm.symm
  | false =>
    rw [hg] at hm
    simp at hm
    exact Or.inr hm.symm

/-- C10: every provider adapter's successfully parsed mei value is a
definite `"Sim"` or `"Nao"`, never the unknown sentinel `"?"`; when the
response is a JSON object with no MEI information at all, each adapter
reports `"Nao"`; and merging a fragment into a record whose mei is still
the initial `"?"` replaces it with the fragment's mei — so any merged
provider fragment turns `"?"` into a definite value. -/
theorem adapters_mei_c10 :
    (∀ data m, cnpja_mei data = some m → m = "Sim" ∨ m = "Nao")
    ∧ (∀ data m, brasil_api_mei data = some m → m = "Sim" ∨ m = "Nao")
    ∧ (∀ data m, receita_ws_mei data = some m → m = "Sim" ∨ m = "Nao")
    ∧ (∀ data m, cnpj_ws_mei data = some m → m = "Sim" ∨ m = "Nao")
    ∧ (∀ data m, minha_receita_mei data = some m → m = "Sim" ∨ m = "Nao")
    ∧ cnpja_mei (PyVal.vDict []) = some "Nao"
    ∧ brasil_api_mei (PyVal.vDict []) = some "Nao"
    ∧ receita_ws_mei (PyVal.vDict []) = some "Nao"
    ∧ cnpj_ws_mei (PyVal.vDict []) = some "Nao"
    ∧ minha_receita_mei (PyVal.vDict []) = some "Nao"
    ∧ (∀ (r f : CNPJData), r.mei = "?" →
        (merge_cnpj_data r (some f)).mei = f.mei) := by
  refine ⟨?_, ?_, ?_, ?_, ?_, rfl, rfl, rfl, rfl, rfl, ?_⟩
  · intro data m h
    rcases Option.bind_eq_some.mp h with ⟨company, _, h2⟩
    rcases Option.bind_eq_some.mp h2 with ⟨simei, _, h3⟩
    exact mei_map_sim_nao _ _ m h3
  · intro data m h
    exact mei_map_sim_nao _ _ m h
  · intro data m h
    rcases Option.bind_eq_some.mp h with ⟨simei, _, h2⟩
    exact mei_map_sim_nao _ _ m h2
  · intro data m h
    rcases Option.bind_eq_some.mp h with ⟨simples, _, h2⟩
    exact mei_map_sim_nao _ _ m h2
  · intro data m h
    exact mei_map_sim_nao _ _ m h
  · intro r f h
    have hcond : (isBlank "?" || ("?" == "?")) = true := by decide
    show mergeMei r.mei f.mei = f.mei
    rw [mergeMei, h, hcond]
    simp

/-- C10 (witness): merging a fragment with mei `"Nao"` into a fresh record
(whose mei is the sentinel `"?"`) yields mei `"Nao"`. -/
theorem adapters_mei_c10_witness :
    (merge_cnpj_data (initCNPJData "07134405000161")
      (some { cnpj := "07134405000161", mei := "Nao" })).mei = "Nao" :=
  adapters_mei_c10.2.2.2.2.2.2.2.2.2.2 (initCNPJData "07134405000161")
    { cnpj := "07134405000161", mei := "Nao" } rfl
